import Mathlib

/-
Verification development for the braillert repository.

The repository under verification converts a raster image (static or an
animated gif) into Unicode braille art. The entry point, shallowly embedded
below, is src/braillert/main.py. The conversion core
(braillert.generator.Generator, the palette tables of braillert.colors and
the exception classes of braillert.exceptions) is not part of the source
tree available here, so those parts are modelled from the specification
(spec sections 3, 4.1 to 4.5), as marked in the individual doc comments.
Everything taken from main.py follows that file line by line.
-/

namespace Braillert

/-- Image data model (spec section 3): an ordered 2D grid of RGB pixels,
width W, height H. Pixel rows are stored row major; out of range access
yields black, matching the zero padding policy of the spec. -/
structure PILImage where
  width : Nat
  height : Nat
  data : List (List (Nat × Nat × Nat))
deriving DecidableEq, Repr

/-- Pixel access with black padding outside the stored grid. -/
def PILImage.getpixel (img : PILImage) (x y : Nat) : Nat × Nat × Nat :=
  (img.data.getD y []).getD x (0, 0, 0)

/-- Ceiling division on naturals: ceilDiv a b = the least n with a <= n * b
for b > 0, written as (a + b - 1) / b. -/
def ceilDiv (a b : Nat) : Nat := (a + b - 1) / b

/-- Modelled from the spec: the Pixel Sampler luminance formula
(spec section 4.1, braillert.generator is not under src/). The spec fixes
only that it is a fixed weighted combination of R, G, B (standard
perceptual luma); the standard integer luma weights are used. -/
def luminance (p : Nat × Nat × Nat) : Nat :=
  (299 * p.1 + 587 * p.2.1 + 114 * p.2.2) / 1000

/-- Modelled from the spec: the default Threshold (spec section 3 says the
default is a fixed integer in [0,255], value left to the source, which is
not under src/); 128 is used here. -/
def thresholdVal (threshold : Option Int) : Int :=
  threshold.getD 128

/-- Modelled from the spec: one sub pixel of a cell (spec sections 4.1
and 4.2): inside the image the dot is on iff luminance >= Threshold;
padding positions outside the image are always off. -/
def dotBit (img : PILImage) (threshold : Option Int) (x y : Nat) : Nat :=
  if x < img.width ∧ y < img.height ∧
      (luminance (img.getpixel x y) : Int) ≥ thresholdVal threshold
  then 1 else 0

/-- Modelled from the spec: the Dot Encoder mask (spec sections 3 and 4.2):
an 8 bit value, bits 0 to 3 are rows 0 to 3 of the left column of the 2 x 4
cell whose top left pixel is (x, y), bits 4 to 7 the right column. -/
def cellMask (img : PILImage) (threshold : Option Int) (x y : Nat) : Nat :=
  (List.range 4).foldl
    (fun acc i =>
      acc + dotBit img threshold x (y + i) * 2 ^ i
          + dotBit img threshold (x + 1) (y + i) * 2 ^ (4 + i))
    0

/-- Modelled from the spec: the Dot Encoder output (spec section 4.2): the
base braille codepoint 0x2800 plus the integer value of the mask. -/
def glyphChar (img : PILImage) (threshold : Option Int) (x y : Nat) : Char :=
  Char.ofNat (0x2800 + cellMask img threshold x y)

/-- Modelled from the spec: the in bounds pixels of the cell with top left
(x, y) (spec section 4.1: padding pixels are excluded from the average). -/
def cellPixels (img : PILImage) (x y : Nat) : List (Nat × Nat × Nat) :=
  (List.range 4).flatMap (fun i =>
    (List.range 2).filterMap (fun j =>
      if x + j < img.width ∧ y + i < img.height
      then some (img.getpixel (x + j) (y + i)) else none))

/-- Modelled from the spec: the representative cell color, the arithmetic
mean of the in bounds pixels (spec section 4.1); black for an empty cell. -/
def avgColor (img : PILImage) (x y : Nat) : Nat × Nat × Nat :=
  let ps := cellPixels img x y
  match ps.length with
  | 0 => (0, 0, 0)
  | Nat.succ _ =>
      ((ps.map (fun p => p.1)).sum / ps.length,
       (ps.map (fun p => p.2.1)).sum / ps.length,
       (ps.map (fun p => p.2.2)).sum / ps.length)

/-- Squared Euclidean distance in RGB space (spec section 4.3). -/
def sqDist (a b : Nat × Nat × Nat) : Int :=
  ((a.1 : Int) - b.1) ^ 2 + ((a.2.1 : Int) - b.2.1) ^ 2
    + ((a.2.2 : Int) - b.2.2) ^ 2

/-- Modelled from the spec: the Color Quantizer nearest color search
(spec section 4.3, braillert.colors is not under src/): nearest palette
entry by Euclidean distance, ties broken by declaration order, first
declared wins; returns that entry's styling token. -/
def nearestToken (entries : List ((Nat × Nat × Nat) × String))
    (c : Nat × Nat × Nat) : String :=
  match entries with
  | [] => ""
  | e :: rest =>
      (rest.foldl (fun best x => if sqDist x.1 c < sqDist best.1 c then x else best) e).2

/-- Palette configuration (spec sections 3 and 4.3): a discrete palette of
color to styling token entries plus one shared reset token, or none at all
for the grayscale mode. This corresponds to one entry of the palettes
dictionary of main.py (the palette tables themselves live in
braillert.colors, which is not under src/). -/
structure PaletteCfg where
  palette : Option (List ((Nat × Nat × Nat) × String))
  resetter : String
deriving DecidableEq, Repr

/-- Modelled from the spec: one emitted cell (spec section 4.4): styling
token, glyph, reset token, tokens omitted in the no palette mode. -/
def cellGlyph (cfg : PaletteCfg) (img : PILImage) (threshold : Option Int)
    (x y : Nat) : String :=
  match cfg.palette with
  | none => (glyphChar img threshold x y).toString
  | some entries =>
      nearestToken entries (avgColor img x y)
        ++ (glyphChar img threshold x y).toString ++ cfg.resetter

/-- Pixel rows at which a cell row starts: every y < H with y divisible
by 4 (the Art Assembler iterates the image in 2 x 4 cells, spec 4.4). -/
def cellRowStarts (img : PILImage) : List Nat :=
  (List.range img.height).filter (fun y => y % 4 = 0)

/-- Pixel columns at which a cell column starts: every x < W with x
divisible by 2. -/
def cellColStarts (img : PILImage) : List Nat :=
  (List.range img.width).filter (fun x => x % 2 = 0)

/-- Modelled from the spec: the Art Assembler grid (spec section 4.4,
braillert.generator is not under src/): cells in row major order, one
emitted string per cell, one inner list per line. -/
def artGrid (cfg : PaletteCfg) (img : PILImage) (threshold : Option Int) :
    List (List String) :=
  (cellRowStarts img).map (fun y =>
    (cellColStarts img).map (fun x => cellGlyph cfg img threshold x y))

/-- Modelled from the spec: Generator.generate_art (spec section 4.4):
the assembled art string, lines joined with newline separators. -/
def generate_art (cfg : PaletteCfg) (img : PILImage)
    (threshold : Option Int) : String :=
  String.intercalate "\n" ((artGrid cfg img threshold).map (fun line =>
    String.join line))

/-- Animation data model (spec section 3): an ordered frame sequence plus
one shared frame delay. -/
structure Animation where
  frames : List String
  frame_delay : Nat
deriving DecidableEq, Repr

/-- Modelled from the spec: Generator.generate_gif_frames (spec section
4.5, braillert.generator is not under src/): the Art Assembler applied to
each decoded frame in source order, no per frame resize, the delay read
once from the source. -/
def generate_gif_frames (cfg : PaletteCfg) (frames : List PILImage)
    (frameDelay : Nat) (threshold : Option Int) : Animation :=
  { frames := frames.map (fun f => generate_art cfg f threshold),
    frame_delay := frameDelay }

/-- Exceptions that the wrapper of main.py can catch, one constructor per
except clause of _exception_handler (main.py lines 127 to 135). The first
two classes live in braillert.exceptions (not under src/, plain exception
classes per their import on main.py line 22); UnexpectedException stands
for any other Exception instance, carrying its string message. -/
inductive Exc where
  | GifUnsupportedResizeError
  | GifUnsupportedSaveError
  | KeyboardInterrupt
  | UnexpectedException (msg : String)
deriving DecidableEq, Repr

/-- Observable effects of one invocation of main (main.py lines 168 to 199).
Logging and logo output are out of scope per spec section 1; the events
kept are the resize call, the two Generator calls, the file write with its
encoding, console printing, and the sleep between frames. -/
inductive Event where
  | resizePortrait (targetWidth : Int)
  | generateArtCall
  | generateGifFramesCall
  | fileWrite (path : String) (encoding : String) (content : String)
  | consolePrint (content : String)
  | sleepCall (delay : Nat)
deriving DecidableEq, Repr

/-- Parsed command line arguments (main.py lines 142 to 158). width has
argparse type int and no default, so it is an optional integer; out
defaults to None. The repeat flag field is named repeat_arg because repeat
is a reserved word in Lean; the source attribute is arguments.repeat. -/
structure Arguments where
  file_path : String
  mode : String
  width : Option Int
  out : Option String
  threshold : Option Int
  disable_logging : Bool
  gif : Bool
  repeat_arg : Bool
deriving DecidableEq, Repr

/-- Python truthiness of an Optional[int]: None and 0 are falsy. -/
def truthyInt : Option Int → Bool
  | none => false
  | some n => n != 0

/-- Python truthiness of an Optional[str]: None and the empty string are
falsy. -/
def truthyStr : Option String → Bool
  | none => false
  | some s => s ≠ ""

/-- Width actually used by _resize_portrait (main.py lines 115 to 116):
if not width: width = 100, so None and 0 both fall back to 100. -/
def effectiveWidth (width : Option Int) : Int :=
  if truthyInt width then width.getD 0 else 100

/-- Embedding of _resize_portrait (main.py lines 114 to 120). The source
computes hsize = int(H * (width / W)) in IEEE double arithmetic and then
resamples with the LANCZOS filter of the external image library; here the
height uses exact integer arithmetic and the resampled content is a plain
coordinate scaling, since the spec (section 6) specifies the resizer only
at its interface and no claim settled here depends on the resampled pixel
values or on the float rounding of the height. -/
def resize_portrait (image : PILImage) (width : Option Int) : PILImage :=
  let w : Nat := (effectiveWidth width).toNat
  let hsize : Nat := image.height * w / image.width
  { width := w
    height := hsize
    data := (List.range hsize).map (fun y =>
      (List.range w).map (fun x =>
        image.getpixel (x * image.width / w) (y * image.height / hsize))) }

/-- Decoded result of Image.open (main.py line 169): the static pixel view,
and, for an animated source, the decoded frame sequence together with the
shared inter frame delay (spec section 6, image decoder interface). -/
structure DecodedImage where
  image : PILImage
  frames : List PILImage
  frameDelay : Nat
deriving DecidableEq, Repr

/-- Image handed to the Generator constructor (main.py lines 170 to 174):
resized through _resize_portrait when the gif flag is not set, the decoded
image unmodified when it is. -/
def generatorInput (args : Arguments) (src : DecodedImage) : PILImage :=
  if args.gif then src.image else resize_portrait src.image args.width

/-- Embedding of the playback loop (main.py lines 191 to 197):
while True: print and sleep for each frame, then break unless the repeat
flag is set. fuel bounds the number of while iterations modelled; the
Boolean result records whether the loop terminated by itself within that
bound (true) or was still running when the fuel ran out (false). -/
def playbackLoop : Nat → List String → Nat → Bool → List Event × Bool
  | 0, _, _, _ => ([], false)
  | Nat.succ fuel, frames, delay, rep =>
      let once := frames.flatMap (fun f => [Event.consolePrint f, Event.sleepCall delay])
      if rep then
        let rest := playbackLoop fuel frames delay rep
        (once ++ rest.1, rest.2)
      else (once, true)

/-- Embedding of the body of main after argument parsing and logging
(main.py lines 168 to 199), as a function of the parsed arguments, the
decoded image, the palette configuration selected by the mode (the palette
tables live in braillert.colors, not under src/), and the playback fuel.
An error value is an exception raised out of the body; a normal result is
the event trace plus the playback termination flag (true on every path
that does not loop forever). Event order follows the source: resize before
the Generator call, the width check before the out check, file writing
after generation. -/
def mainBody (args : Arguments) (src : DecodedImage) (cfg : PaletteCfg)
    (fuel : Nat) : Except Exc (List Event × Bool) :=
  if args.gif then
    if truthyInt args.width then Except.error Exc.GifUnsupportedResizeError
    else if truthyStr args.out then Except.error Exc.GifUnsupportedSaveError
    else
      let anim := generate_gif_frames cfg src.frames src.frameDelay args.threshold
      let p := playbackLoop fuel anim.frames anim.frame_delay args.repeat_arg
      Except.ok (Event.generateGifFramesCall :: p.1, p.2)
  else
    let art := generate_art cfg (generatorInput args src) args.threshold
    let pre := [Event.resizePortrait (effectiveWidth args.width), Event.generateArtCall]
    if truthyStr args.out then
      Except.ok (pre ++ [Event.fileWrite (args.out.getD "") "utf-8" art], true)
    else
      Except.ok (pre ++ [Event.consolePrint art], true)

/-- Embedding of _exception_handler (main.py lines 122 to 137) applied to
the outcome of the wrapped body: a normal result passes through with no
logged message; each caught exception is turned into its logged message
lines and never reraised. The result is (events, logged message lines,
reraised). -/
def handleResult (r : Except Exc (List Event × Bool)) :
    List Event × List String × Bool :=
  match r with
  | Except.ok (ev, _) => (ev, [], false)
  | Except.error Exc.GifUnsupportedResizeError =>
      ([], ["Error! Gif resizing is not supported."], false)
  | Except.error Exc.GifUnsupportedSaveError =>
      ([], ["Error! Gif arts saving is not supported."], false)
  | Except.error Exc.KeyboardInterrupt => ([], [], false)
  | Except.error (Exc.UnexpectedException msg) =>
      ([], ["Error! Unexpected exception caught:", msg], false)

/-- Event trace of an invocation outcome: the trace of a normal result, and
the empty trace of a raised exception (nothing after the raise runs). -/
def traceOf (r : Except Exc (List Event × Bool)) : List Event :=
  match r with
  | Except.ok (ev, _) => ev
  | Except.error _ => []

/-- Whether a trace contains a call of _resize_portrait. -/
def hasResizeEvent (tr : List Event) : Bool :=
  tr.any (fun e => match e with | Event.resizePortrait _ => true | _ => false)

/-- Whether a trace contains a generate_gif_frames call. -/
def hasGifCall (tr : List Event) : Bool :=
  tr.any (fun e => match e with | Event.generateGifFramesCall => true | _ => false)

/-- Number of file writes in a trace. -/
def countFileWrites (tr : List Event) : Nat :=
  (tr.filter (fun e => match e with | Event.fileWrite _ _ _ => true | _ => false)).length

/-- Number of console prints in a trace. -/
def countPrints (tr : List Event) : Nat :=
  (tr.filter (fun e => match e with | Event.consolePrint _ => true | _ => false)).length

/-- Small concrete image used by the concrete input theorems below. -/
def imgSample : PILImage :=
  { width := 3, height := 5,
    data := [[(255, 255, 255), (0, 0, 0), (200, 200, 200)],
             [(0, 0, 0), (255, 255, 255), (0, 0, 0)],
             [(10, 10, 10), (20, 20, 20), (30, 30, 30)],
             [(0, 0, 0), (0, 0, 0), (255, 255, 255)],
             [(100, 100, 100), (150, 150, 150), (50, 50, 50)]] }

/-- Concrete decoded image with two animation frames and delay 100. -/
def srcSample : DecodedImage :=
  { image := imgSample, frames := [imgSample, imgSample], frameDelay := 100 }

/-- Concrete grayscale palette configuration (the gs mode of main.py). -/
def cfgSample : PaletteCfg := { palette := none, resetter := "" }

/-- Concrete arguments: gif conversion requested together with width 50. -/
def argsGifWidth : Arguments :=
  { file_path := "a.gif", mode := "gs", width := some 50, out := none,
    threshold := none, disable_logging := false, gif := true, repeat_arg := false }

/-- Concrete arguments: gif conversion with width 50 and an output path. -/
def argsGifWidthOut : Arguments :=
  { file_path := "a.gif", mode := "gs", width := some 50, out := some "art.txt",
    threshold := none, disable_logging := false, gif := true, repeat_arg := false }

/-- Concrete arguments: gif conversion with an output path, no width. -/
def argsGifOut : Arguments :=
  { file_path := "a.gif", mode := "gs", width := none, out := some "art.txt",
    threshold := none, disable_logging := false, gif := true, repeat_arg := false }

/-- Concrete arguments: static conversion with an output path, no width. -/
def argsStaticOut : Arguments :=
  { file_path := "a.png", mode := "gs", width := none, out := some "art.txt",
    threshold := none, disable_logging := false, gif := false, repeat_arg := false }

/-- Concrete arguments: static conversion, no output path, no width. -/
def argsStaticPlain : Arguments :=
  { file_path := "a.png", mode := "gs", width := none, out := none,
    threshold := none, disable_logging := false, gif := false, repeat_arg := false }

/-- Concrete arguments: gif conversion, no width, no output path. -/
def argsGifPlain : Arguments :=
  { file_path := "a.gif", mode := "gs", width := none, out := none,
    threshold := none, disable_logging := false, gif := true, repeat_arg := false }

/-- Supporting lemma: hasResizeEvent distributes over append. -/
theorem hasResizeEvent_append (a b : List Event) :
    hasResizeEvent (a ++ b) = (hasResizeEvent a || hasResizeEvent b) := by
  simp [hasResizeEvent, List.any_append]

/-- Supporting lemma: one playback pass over the frames contains only
print and sleep events, never a resize call. -/
theorem playOnce_no_resize (frames : List String) (delay : Nat) :
    hasResizeEvent (frames.flatMap
      (fun f => [Event.consolePrint f, Event.sleepCall delay])) = false := by
  induction frames with
  | nil => rfl
  | cons f fs ih =>
      simp [List.flatMap_cons, hasResizeEvent_append, hasResizeEvent, ih]

/-- Supporting lemma: no fuel bound and no repeat setting makes the
playback loop emit a resize call. -/
theorem playback_no_resize (frames : List String) (delay : Nat) :
    ∀ fuel rep, hasResizeEvent (playbackLoop fuel frames delay rep).1 = false
  | 0, _ => rfl
  | Nat.succ n, rep => by
      cases rep with
      | false => simpa [playbackLoop] using playOnce_no_resize frames delay
      | true =>
          simp [playbackLoop, hasResizeEvent_append, playOnce_no_resize frames delay,
            playback_no_resize frames delay n true]

/-- Supporting lemma: the trace of the playback loop with the repeat flag
set is the fuel fold repetition of one in order pass, and the loop never
terminates by itself. -/
theorem playbackLoop_repeat_trace (frames : List String) (delay : Nat) :
    ∀ fuel, playbackLoop fuel frames delay true =
      ((List.replicate fuel (frames.flatMap
        (fun f => [Event.consolePrint f, Event.sleepCall delay]))).flatten, false)
  | 0 => rfl
  | Nat.succ n => by
      simp [playbackLoop, playbackLoop_repeat_trace frames delay n,
        List.replicate_succ]

/-- Supporting lemma: the number of cell rows of an image of height h is
the ceiling of h / 4. -/
theorem length_filter_mod_four (h : Nat) :
    ((List.range h).filter (fun y => y % 4 = 0)).length = (h + 3) / 4 := by
  induction h with
  | zero => rfl
  | succ n ih =>
      rw [List.range_succ, List.filter_append, List.length_append, ih]
      by_cases hn : n % 4 = 0
      · rw [show (List.filter (fun y => decide (y % 4 = 0)) [n]) = [n] by simp [hn]]
        simp only [List.length_singleton]
        omega
      · rw [show (List.filter (fun y => decide (y % 4 = 0)) [n]) = [] by simp [hn]]
        simp only [List.length_nil]
        omega

/-- Supporting lemma: the number of cell columns of an image of width w is
the ceiling of w / 2. -/
theorem length_filter_mod_two (h : Nat) :
    ((List.range h).filter (fun x => x % 2 = 0)).length = (h + 1) / 2 := by
  induction h with
  | zero => rfl
  | succ n ih =>
      rw [List.range_succ, List.filter_append, List.length_append, ih]
      by_cases hn : n % 2 = 0
      · rw [show (List.filter (fun x => decide (x % 2 = 0)) [n]) = [n] by simp [hn]]
        simp only [List.length_singleton]
        omega
      · rw [show (List.filter (fun x => decide (x % 2 = 0)) [n]) = [] by simp [hn]]
        simp only [List.length_nil]
        omega

/-- C1: requesting animated (gif) conversion together with a width
override raises GifUnsupportedResizeError out of main before any frame is
converted: the result is exactly that exception, the trace is empty, so
generate_gif_frames is never called and no art output (file write or
console print) is produced. -/
theorem gif_width_raises_resize_before_any_frame
    (args : Arguments) (src : DecodedImage) (cfg : PaletteCfg) (fuel : Nat)
    (hg : args.gif = true) (hw : truthyInt args.width = true) :
    mainBody args src cfg fuel = Except.error Exc.GifUnsupportedResizeError ∧
    hasGifCall (traceOf (mainBody args src cfg fuel)) = false ∧
    countFileWrites (traceOf (mainBody args src cfg fuel)) = 0 ∧
    countPrints (traceOf (mainBody args src cfg fuel)) = 0 := by
  have h1 : mainBody args src cfg fuel = Except.error Exc.GifUnsupportedResizeError := by
    simp [mainBody, hg, hw]
  exact ⟨h1, by simp [h1, traceOf, hasGifCall],
    by simp [h1, traceOf, countFileWrites], by simp [h1, traceOf, countPrints]⟩

/-- Witness for C1 at the concrete input argsGifWidth. -/
theorem gif_width_raises_resize_before_any_frame_witness :
    mainBody argsGifWidth srcSample cfgSample 1 =
      Except.error Exc.GifUnsupportedResizeError ∧
    hasGifCall (traceOf (mainBody argsGifWidth srcSample cfgSample 1)) = false ∧
    countFileWrites (traceOf (mainBody argsGifWidth srcSample cfgSample 1)) = 0 ∧
    countPrints (traceOf (mainBody argsGifWidth srcSample cfgSample 1)) = 0 :=
  gif_width_raises_resize_before_any_frame argsGifWidth srcSample cfgSample 1
    rfl (by decide)

/-- C2 counterexample: at the concrete input gif plus width 50 plus output
path art.txt the body raises GifUnsupportedResizeError, not the
save unsupported error the claim promises for every gif plus output path
invocation, because the width check of main.py line 177 runs first. -/
theorem gif_out_with_width_not_save_error :
    argsGifWidthOut.gif = true ∧ truthyStr argsGifWidthOut.out = true ∧
    mainBody argsGifWidthOut srcSample cfgSample 1 =
      Except.error Exc.GifUnsupportedResizeError ∧
    mainBody argsGifWidthOut srcSample cfgSample 1 ≠
      Except.error Exc.GifUnsupportedSaveError := by
  refine ⟨rfl, by decide, rfl, ?_⟩
  intro hcontra
  have h1 : mainBody argsGifWidthOut srcSample cfgSample 1 =
      Except.error Exc.GifUnsupportedResizeError := rfl
  rw [h1] at hcontra
  simp at hcontra

/-- C2 amended: requesting animated (gif) conversion together with an
output file path and without a (truthy) width override raises
GifUnsupportedSaveError before conversion begins: the result is exactly
that exception, generate_gif_frames is never called and no file is opened
or written. -/
theorem gif_out_no_width_raises_save_error
    (args : Arguments) (src : DecodedImage) (cfg : PaletteCfg) (fuel : Nat)
    (hg : args.gif = true) (hw : truthyInt args.width = false)
    (ho : truthyStr args.out = true) :
    mainBody args src cfg fuel = Except.error Exc.GifUnsupportedSaveError ∧
    hasGifCall (traceOf (mainBody args src cfg fuel)) = false ∧
    countFileWrites (traceOf (mainBody args src cfg fuel)) = 0 := by
  have h1 : mainBody args src cfg fuel = Except.error Exc.GifUnsupportedSaveError := by
    simp [mainBody, hg, hw, ho]
  exact ⟨h1, by simp [h1, traceOf, hasGifCall],
    by simp [h1, traceOf, countFileWrites]⟩

/-- Witness for the amended C2 at the concrete input argsGifOut. -/
theorem gif_out_no_width_raises_save_error_witness :
    mainBody argsGifOut srcSample cfgSample 1 =
      Except.error Exc.GifUnsupportedSaveError ∧
    hasGifCall (traceOf (mainBody argsGifOut srcSample cfgSample 1)) = false ∧
    countFileWrites (traceOf (mainBody argsGifOut srcSample cfgSample 1)) = 0 :=
  gif_out_no_width_raises_save_error argsGifOut srcSample cfgSample 1
    rfl (by decide) (by decide)

/-- C3: for any frame sequence and delay, one fueled run of the playback
loop of main.py lines 191 to 197 without the repeat flag prints each frame
exactly once in source order with a sleep of the delay after each frame
and then terminates; with the repeat flag it emits that same in order pass
once per fuel unit and never terminates by itself, for every fuel bound. -/
theorem playback_frames_once_or_repeated
    (frames : List String) (delay fuel : Nat) (h : 1 ≤ fuel) :
    playbackLoop fuel frames delay false =
      (frames.flatMap (fun f => [Event.consolePrint f, Event.sleepCall delay]),
        true) ∧
    playbackLoop fuel frames delay true =
      ((List.replicate fuel (frames.flatMap
        (fun f => [Event.consolePrint f, Event.sleepCall delay]))).flatten,
        false) := by
  constructor
  · cases fuel with
    | zero => exact absurd h (by simp)
    | succ n => simp [playbackLoop]
  · exact playbackLoop_repeat_trace frames delay fuel

/-- Witness for C3 at two concrete frames, delay 100 and fuel 2. -/
theorem playback_frames_once_or_repeated_witness :
    playbackLoop 2 ["A", "B"] 100 false =
      (["A", "B"].flatMap (fun f => [Event.consolePrint f, Event.sleepCall 100]),
        true) ∧
    playbackLoop 2 ["A", "B"] 100 true =
      ((List.replicate 2 (["A", "B"].flatMap
        (fun f => [Event.consolePrint f, Event.sleepCall 100]))).flatten,
        false) :=
  playback_frames_once_or_repeated ["A", "B"] 100 2 (by decide)

/-- C4: the wrapper of main.py lines 122 to 137 turns every caught
exception into exactly its kind specific logged lines and never reraises:
one line for each gif error kind, the fixed line plus the string message
of the exception for any other caught exception, and nothing at all for
KeyboardInterrupt, which ends the invocation silently. -/
theorem exception_handler_one_message_per_kind (msg : String) :
    handleResult (Except.error Exc.GifUnsupportedResizeError) =
      ([], ["Error! Gif resizing is not supported."], false) ∧
    handleResult (Except.error Exc.GifUnsupportedSaveError) =
      ([], ["Error! Gif arts saving is not supported."], false) ∧
    handleResult (Except.error (Exc.UnexpectedException msg)) =
      ([], ["Error! Unexpected exception caught:", msg], false) ∧
    handleResult (Except.error Exc.KeyboardInterrupt) = ([], [], false) ∧
    ∀ e : Exc, (handleResult (Except.error e)).2.2 = false := by
  refine ⟨rfl, rfl, rfl, rfl, ?_⟩
  intro e
  cases e <;> rfl

/-- C5: a successful static conversion sends the generated art to exactly
one sink. With an output path the trace is the resize, the generation, and
one UTF-8 file write of the art, with no console print; without one the
trace ends in one console print of the art, with no file write. -/
theorem static_art_exactly_one_sink
    (args : Arguments) (src : DecodedImage) (cfg : PaletteCfg) (fuel : Nat)
    (hg : args.gif = false) :
    (truthyStr args.out = true →
      traceOf (mainBody args src cfg fuel) =
        [Event.resizePortrait (effectiveWidth args.width), Event.generateArtCall,
         Event.fileWrite (args.out.getD "") "utf-8"
           (generate_art cfg (generatorInput args src) args.threshold)] ∧
      countPrints (traceOf (mainBody args src cfg fuel)) = 0 ∧
      countFileWrites (traceOf (mainBody args src cfg fuel)) = 1) ∧
    (truthyStr args.out = false →
      traceOf (mainBody args src cfg fuel) =
        [Event.resizePortrait (effectiveWidth args.width), Event.generateArtCall,
         Event.consolePrint
           (generate_art cfg (generatorInput args src) args.threshold)] ∧
      countFileWrites (traceOf (mainBody args src cfg fuel)) = 0 ∧
      countPrints (traceOf (mainBody args src cfg fuel)) = 1) := by
  cases ho : truthyStr args.out with
  | true =>
      refine ⟨fun _ => ?_, fun hcontra => by simp [ho] at hcontra⟩
      have h1 : traceOf (mainBody args src cfg fuel) =
          [Event.resizePortrait (effectiveWidth args.width), Event.generateArtCall,
           Event.fileWrite (args.out.getD "") "utf-8"
             (generate_art cfg (generatorInput args src) args.threshold)] := by
        simp [mainBody, hg, ho, traceOf]
      exact ⟨h1, by simp [h1, countPrints], by simp [h1, countFileWrites]⟩
  | false =>
      refine ⟨fun hcontra => by simp [ho] at hcontra, fun _ => ?_⟩
      have h1 : traceOf (mainBody args src cfg fuel) =
          [Event.resizePortrait (effectiveWidth args.width), Event.generateArtCall,
           Event.consolePrint
             (generate_art cfg (generatorInput args src) args.threshold)] := by
        simp [mainBody, hg, ho, traceOf]
      exact ⟨h1, by simp [h1, countFileWrites], by simp [h1, countPrints]⟩

/-- Witness for C5 at the concrete static input with an output path. -/
theorem static_art_exactly_one_sink_witness :
    (truthyStr argsStaticOut.out = true →
      traceOf (mainBody argsStaticOut srcSample cfgSample 1) =
        [Event.resizePortrait (effectiveWidth argsStaticOut.width),
         Event.generateArtCall,
         Event.fileWrite (argsStaticOut.out.getD "") "utf-8"
           (generate_art cfgSample (generatorInput argsStaticOut srcSample)
             argsStaticOut.threshold)] ∧
      countPrints (traceOf (mainBody argsStaticOut srcSample cfgSample 1)) = 0 ∧
      countFileWrites (traceOf (mainBody argsStaticOut srcSample cfgSample 1)) = 1) ∧
    (truthyStr argsStaticOut.out = false →
      traceOf (mainBody argsStaticOut srcSample cfgSample 1) =
        [Event.resizePortrait (effectiveWidth argsStaticOut.width),
         Event.generateArtCall,
         Event.consolePrint
           (generate_art cfgSample (generatorInput argsStaticOut srcSample)
             argsStaticOut.threshold)] ∧
      countFileWrites (traceOf (mainBody argsStaticOut srcSample cfgSample 1)) = 0 ∧
      countPrints (traceOf (mainBody argsStaticOut srcSample cfgSample 1)) = 1) :=
  static_art_exactly_one_sink argsStaticOut srcSample cfgSample 1 rfl

/-- C7: when the gif flag is set the image handed to the Generator is the
decoded image unmodified and no invocation outcome contains a call of
_resize_portrait, whatever the other arguments are. -/
theorem gif_never_resizes
    (args : Arguments) (src : DecodedImage) (cfg : PaletteCfg) (fuel : Nat)
    (hg : args.gif = true) :
    generatorInput args src = src.image ∧
    hasResizeEvent (traceOf (mainBody args src cfg fuel)) = false := by
  refine ⟨by simp [generatorInput, hg], ?_⟩
  by_cases hw : truthyInt args.width
  · simp [mainBody, hg, hw, traceOf, hasResizeEvent]
  · by_cases ho : truthyStr args.out
    · simp [mainBody, hg, hw, ho, traceOf, hasResizeEvent]
    · have hp := playback_no_resize
        (generate_gif_frames cfg src.frames src.frameDelay args.threshold).frames
        (generate_gif_frames cfg src.frames src.frameDelay args.threshold).frame_delay
        fuel args.repeat_arg
      simp [hasResizeEvent] at hp
      simp [mainBody, hg, hw, ho, traceOf, hasResizeEvent]
      exact hp

/-- Witness for C7 at the concrete input argsGifPlain. -/
theorem gif_never_resizes_witness :
    generatorInput argsGifPlain srcSample = srcSample.image ∧
    hasResizeEvent (traceOf (mainBody argsGifPlain srcSample cfgSample 1)) = false :=
  gif_never_resizes argsGifPlain srcSample cfgSample 1 rfl

/-- C8: for every image of size W x H, every palette configuration and
every threshold, the art grid has exactly ceil(H/4) lines and every line
has exactly ceil(W/2) glyph cells, also when W is not divisible by 2 or H
is not divisible by 4; partial edge cells are kept zero padded, not
dropped, because every start coordinate inside the image produces a cell. -/
theorem art_grid_dimensions
    (cfg : PaletteCfg) (img : PILImage) (threshold : Option Int) :
    (artGrid cfg img threshold).length = ceilDiv img.height 4 ∧
    ∀ line ∈ artGrid cfg img threshold, line.length = ceilDiv img.width 2 := by
  constructor
  · show ((cellRowStarts img).map _).length = _
    rw [List.length_map, cellRowStarts, length_filter_mod_four]
    simp [ceilDiv]
  · intro line hl
    rw [artGrid, List.mem_map] at hl
    obtain ⟨y, _, rfl⟩ := hl
    rw [List.length_map, cellColStarts, length_filter_mod_two]
    simp [ceilDiv]

/-- C9: in static conversion an absent or zero width argument is treated
as unset: the effective resize width is the default 100, the resized image
is 100 pixels wide rather than zero, and the trace records a resize to
width 100. -/
theorem unset_width_defaults_to_100
    (args : Arguments) (src : DecodedImage) (cfg : PaletteCfg) (fuel : Nat)
    (hg : args.gif = false) (hw : args.width = none ∨ args.width = some 0) :
    effectiveWidth args.width = 100 ∧
    (resize_portrait src.image args.width).width = 100 ∧
    Event.resizePortrait 100 ∈ traceOf (mainBody args src cfg fuel) := by
  have h100 : effectiveWidth args.width = 100 := by
    rcases hw with h | h <;> simp [h, effectiveWidth, truthyInt]
  refine ⟨h100, by simp [resize_portrait, h100], ?_⟩
  by_cases ho : truthyStr args.out <;>
    simp [mainBody, hg, ho, traceOf, h100]

/-- Witness for C9 at the concrete static input without a width. -/
theorem unset_width_defaults_to_100_witness :
    effectiveWidth argsStaticPlain.width = 100 ∧
    (resize_portrait srcSample.image argsStaticPlain.width).width = 100 ∧
    Event.resizePortrait 100 ∈
      traceOf (mainBody argsStaticPlain srcSample cfgSample 1) :=
  unset_width_defaults_to_100 argsStaticPlain srcSample cfgSample 1 rfl
    (Or.inl rfl)

/-- C10: gif mode with both a width override and an output path raises
GifUnsupportedResizeError, because the width check of main.py line 177
precedes the out check of line 179, so the save unsupported error is never
the reported outcome for that combination. -/
theorem resize_error_precedes_save_error
    (args : Arguments) (src : DecodedImage) (cfg : PaletteCfg) (fuel : Nat)
    (hg : args.gif = true) (hw : truthyInt args.width = true)
    (_ho : truthyStr args.out = true) :
    mainBody args src cfg fuel = Except.error Exc.GifUnsupportedResizeError ∧
    mainBody args src cfg fuel ≠ Except.error Exc.GifUnsupportedSaveError := by
  have h1 : mainBody args src cfg fuel = Except.error Exc.GifUnsupportedResizeError := by
    simp [mainBody, hg, hw]
  refine ⟨h1, ?_⟩
  intro hcontra
  rw [h1] at hcontra
  simp at hcontra

/-- Witness for C10 at the concrete input argsGifWidthOut. -/
theorem resize_error_precedes_save_error_witness :
    mainBody argsGifWidthOut srcSample cfgSample 1 =
      Except.error Exc.GifUnsupportedResizeError ∧
    mainBody argsGifWidthOut srcSample cfgSample 1 ≠
      Except.error Exc.GifUnsupportedSaveError :=
  resize_error_precedes_save_error argsGifWidthOut srcSample cfgSample 1
    rfl (by decide) (by decide)

end Braillert
